import Mathlib

/-!
Verification of the pythreads client library against its design specification.

The development shallowly embeds the code of `src/pythreads/credentials.py`,
`src/pythreads/threads.py` and `src/pythreads/api.py`:

* JSON documents are modelled as an abstract value tree (`JSON`); the textual
  encoding performed by the standard-library `json` module is not re-modelled,
  but the one non-default codec — `datetime` ↔ ISO-8601 string — is modelled
  down to the character level (`Datetime.isoformat` / `parseIso`).
* Aware UTC `datetime.datetime` values are modelled by `Datetime`
  (year/month/day/hour/minute/second/microsecond, implicitly `timezone.utc`,
  which is the library's documented invariant for every stored instant).
  Subtraction and comparison of instants go through `Datetime.toMicros`,
  mirroring CPython's ordinal-based datetime arithmetic exactly (in integer
  microseconds).
* Each API method becomes a pure function of the `API` state, the current
  time, and a network oracle `Request → JSON`; it returns an `Outcome`
  recording the result (`Except ThreadsError _`), the list of network
  requests actually issued, and the credentials held by the instance after
  the call.  URL assembly is kept structural (`GraphURL`), per the design
  document, which scopes out the textual query-string composition.
-/

set_option maxHeartbeats 1000000

/-- A JSON value, as produced by `json.loads` / consumed by `json.dumps`.
Numbers are restricted to integers (the only numbers this library puts into
or reads out of documents are integral). -/
inductive JSON where
  | str (s : String)
  | num (n : Int)
  | bool (b : Bool)
  | arr (xs : List JSON)
  | obj (kvs : List (String × JSON))
  | null
deriving Repr

/-- Key lookup in the association list underlying a JSON object
(`dict.get` / `in` on a decoded object). -/
def lookupKV : List (String × JSON) → String → Option JSON
  | [], _ => none
  | (k', v) :: rest, k => if k' = k then some v else lookupKV rest k

/-- Model of `result.get(key)` on a decoded JSON document: `none` when the document is
not an object or lacks the key. -/
def jget : JSON → String → Option JSON
  | .obj kvs, k => lookupKV kvs k
  | _, _ => none

/-- Python truthiness of a decoded JSON value (`if value:`). -/
def jtruthy : JSON → Bool
  | .str s => !s.isEmpty
  | .num n => n != 0
  | .bool b => b
  | .arr xs => !xs.isEmpty
  | .obj kvs => !kvs.isEmpty
  | .null => false

/-- An aware UTC `datetime.datetime`.  The library stores and compares every
instant in UTC (documented invariant), so the timezone member is left
implicit. -/
structure Datetime where
  year : Nat
  month : Nat
  day : Nat
  hour : Nat
  minute : Nat
  second : Nat
  microsecond : Nat
deriving DecidableEq, Repr

namespace Datetime

/-- Model of `calendar.isleap` / the Gregorian leap-year rule used by `datetime`. -/
def isLeap (y : Nat) : Bool :=
  y % 4 == 0 && (y % 100 != 0 || y % 400 == 0)

/-- Number of days in month `m` of year `y` (`datetime._days_in_month`). -/
def daysInMonth (y m : Nat) : Nat :=
  if m = 2 then (if isLeap y then 29 else 28)
  else if m = 4 ∨ m = 6 ∨ m = 9 ∨ m = 11 then 30
  else 31

/-- Days in all years strictly before year `y` (`datetime._days_before_year`). -/
def daysBeforeYear (y : Nat) : Nat :=
  let n := y - 1
  n * 365 + n / 4 + n / 400 - n / 100

/-- Days in the months of year `y` strictly before month `m`
(`datetime._days_before_month`). -/
def daysBeforeMonth (y m : Nat) : Nat :=
  (List.range (m - 1)).foldl (fun acc i => acc + daysInMonth y (i + 1)) 0

/-- Model of `datetime.toordinal()`: day number with `0001-01-01` as ordinal 1. -/
def toordinal (t : Datetime) : Nat :=
  daysBeforeYear t.year + daysBeforeMonth t.year t.month + t.day

/-- The instant as integer microseconds on a single absolute axis; datetime
subtraction/comparison of two aware UTC datetimes is exactly subtraction /
comparison of these numbers. -/
def toMicros (t : Datetime) : Int :=
  (((toordinal t * 24 + t.hour) * 60 + t.minute) * 60 + t.second : Nat) * 1000000
    + (t.microsecond : Nat)

/-- Field ranges enforced by the `datetime` constructor. -/
def valid (t : Datetime) : Bool :=
  1 ≤ t.year && t.year ≤ 9999 &&
  1 ≤ t.month && t.month ≤ 12 &&
  1 ≤ t.day && t.day ≤ daysInMonth t.year t.month &&
  t.hour ≤ 23 && t.minute ≤ 59 && t.second ≤ 59 && t.microsecond ≤ 999999

end Datetime

/-- The decimal digit character for `n < 10`. -/
def digitChar (n : Nat) : Char := Char.ofNat (48 + n)

/-- The number `n` printed as exactly `k` decimal digits, zero padded, most significant
first (the `%04d`/`%02d`/`%06d` paddings used by `datetime.isoformat`). -/
def padDigits : Nat → Nat → List Char
  | 0, _ => []
  | k + 1, n => digitChar (n / 10 ^ k) :: padDigits k (n % 10 ^ k)

/-- Read exactly `k` decimal digits, accumulating onto `acc`. -/
def readDigitsAux : Nat → Nat → List Char → Option (Nat × List Char)
  | 0, acc, cs => some (acc, cs)
  | k + 1, acc, c :: cs =>
      if c.isDigit then readDigitsAux k (acc * 10 + (c.toNat - 48)) cs else none
  | _ + 1, _, [] => none

/-- Read exactly `k` decimal digits from the front of `cs`. -/
def readDigits (k : Nat) (cs : List Char) : Option (Nat × List Char) :=
  readDigitsAux k 0 cs

/-- Consume one expected literal character. -/
def expectChar (c : Char) : List Char → Option (List Char)
  | x :: xs => if x = c then some xs else none
  | [] => none

namespace Datetime

/-- Model of `datetime.isoformat()` of an aware UTC datetime, as a character list:
`YYYY-MM-DDTHH:MM:SS[.ffffff]+00:00`, the fraction omitted when the
microsecond member is zero. -/
def isoChars (t : Datetime) : List Char :=
  padDigits 4 t.year ++ '-' :: padDigits 2 t.month ++ '-' :: padDigits 2 t.day ++
  'T' :: padDigits 2 t.hour ++ ':' :: padDigits 2 t.minute ++ ':' :: padDigits 2 t.second ++
  (if t.microsecond = 0 then [] else '.' :: padDigits 6 t.microsecond) ++
  ['+', '0', '0', ':', '0', '0']

/-- Model of `datetime.isoformat()` as a string. -/
def isoformat (t : Datetime) : String := ⟨isoChars t⟩

end Datetime

/-- Model of `datetime.fromisoformat` restricted to the format this library emits
(aware UTC instants printed by `Datetime.isoformat`): fixed-width date and
time fields, an optional 6-digit fraction, and the `+00:00` offset.  Returns
`none` (the Python call raises) on any other shape or on out-of-range
fields. -/
def parseIso (cs : List Char) : Option Datetime :=
  match readDigits 4 cs with
  | none => none
  | some (y, cs) =>
  match expectChar '-' cs with
  | none => none
  | some cs =>
  match readDigits 2 cs with
  | none => none
  | some (mo, cs) =>
  match expectChar '-' cs with
  | none => none
  | some cs =>
  match readDigits 2 cs with
  | none => none
  | some (d, cs) =>
  match expectChar 'T' cs with
  | none => none
  | some cs =>
  match readDigits 2 cs with
  | none => none
  | some (h, cs) =>
  match expectChar ':' cs with
  | none => none
  | some cs =>
  match readDigits 2 cs with
  | none => none
  | some (mi, cs) =>
  match expectChar ':' cs with
  | none => none
  | some cs =>
  match readDigits 2 cs with
  | none => none
  | some (s, cs) =>
  let fraction : Option (Nat × List Char) :=
    match cs with
    | '.' :: cs2 =>
      match readDigits 6 cs2 with
      | none => none
      | some (us, cs3) => some (us, cs3)
    | _ => some (0, cs)
  match fraction with
  | none => none
  | some (us, cs) =>
  match cs with
  | ['+', '0', '0', ':', '0', '0'] =>
      let t : Datetime := ⟨y, mo, d, h, mi, s, us⟩
      if t.valid then some t else none
  | _ => none

/-- Model of `datetime.fromisoformat` on a string. -/
def fromisoformat (s : String) : Option Datetime := parseIso s.data

/-- The `Credentials` dataclass of `credentials.py`. -/
structure Credentials where
  user_id : String
  scopes : List String
  short_lived : Bool
  access_token : String
  expiration : Datetime
deriving DecidableEq, Repr

namespace Credentials

/-- Model of `Credentials.expires_in`: seconds before the token expires, truncated
toward zero (`int(timedelta.total_seconds())`), clamped at 0.  `now` is the
current instant in microseconds (`datetime.now(timezone.utc)`). -/
def expires_in (c : Credentials) (now : Int) : Int :=
  let seconds := Int.tdiv (c.expiration.toMicros - now) 1000000
  if seconds > 0 then seconds else 0

/-- Model of `Credentials.expired`: `True if self.expires_in() == 0 else False`. -/
def expired (c : Credentials) (now : Int) : Bool :=
  c.expires_in now == 0

/-- Model of `Credentials.to_json`: `json.dumps(asdict(self), cls=_JSONEncoder)`,
modelled at the JSON-value level.  `asdict` lists the dataclass fields in
declaration order; the custom encoder turns the `expiration` datetime into
its ISO-8601 string. -/
def to_json (c : Credentials) : JSON :=
  .obj [("user_id", .str c.user_id),
        ("scopes", .arr (c.scopes.map .str)),
        ("short_lived", .bool c.short_lived),
        ("access_token", .str c.access_token),
        ("expiration", .str c.expiration.isoformat)]

/-- Decode a JSON array of strings (the `scopes` member). -/
def decodeScopes : List JSON → Option (List String)
  | [] => some []
  | .str s :: rest =>
      match decodeScopes rest with
      | some ss => some (s :: ss)
      | none => none
  | _ :: _ => none

/-- Model of `Credentials.from_json`: `json.loads` with the `_JSONDecoder` object hook
(which runs the `expiration` member through `datetime.fromisoformat`),
followed by `Credentials(**data)`.  The document must carry exactly the five
dataclass fields; the model matches the serialised field order, which is the
shape `to_json` emits. -/
def from_json (j : JSON) : Option Credentials :=
  match j with
  | .obj [("user_id", .str u), ("scopes", .arr ss), ("short_lived", .bool sl),
          ("access_token", .str tok), ("expiration", .str ex)] =>
      match decodeScopes ss, fromisoformat ex with
      | some scopes, some dt => some ⟨u, scopes, sl, tok, dt⟩
      | _, _ => none
  | _ => none

end Credentials

/-- The reason string carried by a `ThreadsInvalidParameter`, abstracted to a
tag (the Python messages are f-strings; for the invalid-metric message the
offending names are carried explicitly, deduplicated). -/
inductive InvalidParamKind where
  | invalidMetrics (ms : List String)
  | breakdownRequired
  | carouselCount
  | carouselChildrenNotFinished
deriving DecidableEq, Repr

/-- The exceptions the embedded code can raise. -/
inductive ThreadsError where
  /-- Model of `ThreadsAccessTokenExpired` -/
  | tokenExpired
  /-- Model of `ThreadsInvalidParameter` -/
  | invalidParameter (kind : InvalidParamKind)
  /-- Model of `ThreadsResponseError` (carries the offending response) -/
  | responseError (response : JSON)
  /-- Model of `ThreadsAuthenticationError` -/
  | authenticationError
  /-- Python `KeyError` (failed enum/dict lookup) -/
  | keyError
  /-- Python `TypeError` -/
  | typeError
  /-- Model of `RuntimeError` (API instance used without a session) -/
  | runtimeError
deriving Repr

/-- A query-parameter value (`str`, `int` or `bool` in the Python dicts). -/
inductive PVal where
  | s (v : String)
  | i (v : Int)
  | b (v : Bool)
deriving DecidableEq, Repr

/-- An insertion-ordered string-keyed dict, as Python builds the `params`
dicts. -/
def ParamMap := List (String × PVal)

/-- Model of `params[k] = v` on an insertion-ordered dict: replace in place if the key
exists, else append. -/
def dinsert : ParamMap → String → PVal → ParamMap
  | [], k, v => [(k, v)]
  | (k', v') :: rest, k, v =>
      if k' = k then (k, v) :: rest else (k', v') :: dinsert rest k v

/-- Dict lookup. -/
def dlookup : ParamMap → String → Option PVal
  | [], _ => none
  | (k', v) :: rest, k => if k' = k then some v else dlookup rest k

/-- Model of `",".join(...)`. -/
def joinComma (xs : List String) : String := String.intercalate "," xs

/-- The request URL, kept structural: the design document scopes the textual
query-string composition of `Threads.build_graph_api_url` out of the deep
specification and uses only its contract (path + parameter map + optional
access token). -/
structure GraphURL where
  path : String
  params : ParamMap
  token : Option String

namespace Threads

/-- Model of `Threads.build_graph_api_url` (structural contract, see `GraphURL`). -/
def build_graph_api_url (path : String) (params : ParamMap) (token : Option String) : GraphURL :=
  ⟨path, params, token⟩

end Threads

/-- One network call: the HTTP method together with the built URL. -/
inductive Request where
  | get (url : GraphURL)
  | post (url : GraphURL)

/-- Model of `MediaType` enum. -/
inductive MediaType where
  | CAROUSEL
  | IMAGE
  | TEXT
  | VIDEO
deriving DecidableEq, Repr

/-- The string value of a `MediaType` member. -/
def MediaType.value : MediaType → String
  | .CAROUSEL => "CAROUSEL"
  | .IMAGE => "IMAGE"
  | .TEXT => "TEXT"
  | .VIDEO => "VIDEO"

/-- Model of `ReplyControl` enum. -/
inductive ReplyControl where
  | ACCOUNTS_YOU_FOLLOW
  | EVERYONE
  | MENTIONED_ONLY
deriving DecidableEq, Repr

/-- The string value of a `ReplyControl` member. -/
def ReplyControl.value : ReplyControl → String
  | .ACCOUNTS_YOU_FOLLOW => "accounts_you_follow"
  | .EVERYONE => "everyone"
  | .MENTIONED_ONLY => "mentioned_only"

/-- The `Media` dataclass. -/
structure Media where
  type : MediaType
  url : String
deriving DecidableEq, Repr

/-- Model of `PublishingStatus` enum. -/
inductive PublishingStatus where
  | EXPIRED
  | ERROR
  | FINISHED
  | IN_PROGRESS
  | PUBLISHED
deriving DecidableEq, Repr

/-- Model of `PublishingStatus[name]`: member lookup by name (`KeyError` ↦ `none`). -/
def publishingStatusOfName : String → Option PublishingStatus
  | "EXPIRED" => some .EXPIRED
  | "ERROR" => some .ERROR
  | "FINISHED" => some .FINISHED
  | "IN_PROGRESS" => some .IN_PROGRESS
  | "PUBLISHED" => some .PUBLISHED
  | _ => none

/-- Model of `PublishingError` enum.  Two members carry a trailing
underscore in Lean; their Python member names (the lookup keys in
`publishingErrorOfName`) are unchanged. -/
inductive PublishingError where
  | FAILED_DOWNLOADING_VIDEO
  | FAILED_PROCESSING_AUDIO_
  | FAILED_PROCESSING_VIDEO
  | INVALID_ASPEC_RATIO_
  | INVALID_BIT_RATE
  | INVALID_DURATION
  | INVALID_FRAME_RATE
  | INVALID_AUDIO_CHANNELS
  | INVALID_AUDIO_CHANNEL_LAYOUT
  | UNKNOWN
deriving DecidableEq, Repr

/-- Model of `PublishingError[name]`: member lookup by name (`KeyError` ↦ `none`). -/
def publishingErrorOfName : String → Option PublishingError
  | "FAILED_DOWNLOADING_VIDEO" => some .FAILED_DOWNLOADING_VIDEO
  | "FAILED_PROCESSING_AUDIO" => some .FAILED_PROCESSING_AUDIO_
  | "FAILED_PROCESSING_VIDEO" => some .FAILED_PROCESSING_VIDEO
  | "INVALID_ASPEC_RATIO" => some .INVALID_ASPEC_RATIO_
  | "INVALID_BIT_RATE" => some .INVALID_BIT_RATE
  | "INVALID_DURATION" => some .INVALID_DURATION
  | "INVALID_FRAME_RATE" => some .INVALID_FRAME_RATE
  | "INVALID_AUDIO_CHANNELS" => some .INVALID_AUDIO_CHANNELS
  | "INVALID_AUDIO_CHANNEL_LAYOUT" => some .INVALID_AUDIO_CHANNEL_LAYOUT
  | "UNKNOWN" => some .UNKNOWN
  | _ => none

/-- The `ContainerStatus` dataclass. -/
structure ContainerStatus where
  id : String
  status : PublishingStatus
  error : Option PublishingError := none
deriving DecidableEq, Repr

/-- The known user-insight metric names (`USER_METRIC_TYPES`). -/
def USER_METRIC_TYPES : List String :=
  ["views", "likes", "replies", "reposts", "quotes",
   "followers_count", "follower_demographics"]

/-- The known follower-demographic breakdowns (`FOLLOWER_DEMOGRAPHIC_TYPES`). -/
def FOLLOWER_DEMOGRAPHIC_TYPES : List String :=
  ["age", "city", "country", "gender"]

/-- The `metrics` argument of `user_insights`: a single name or a list
(`Union[UserMetricType, List[UserMetricType]]`). -/
inductive MetricsArg where
  | one (m : String)
  | many (ms : List String)
deriving DecidableEq, Repr

/-- The state of an `API` instance: its credentials and whether a session is
attached (inside `async with` a session is always present). -/
structure API where
  credentials : Credentials
  session : Bool

/-- What one API method invocation yields: the Python return value or the
exception raised, the network requests actually issued (in order), and the
credentials held by the instance afterwards. -/
structure Outcome (α : Type) where
  result : Except ThreadsError α
  calls : List Request
  creds : Credentials

namespace API

/-- Model of `API._access_token`: raise `ThreadsAccessTokenExpired` when the
credentials are expired, else return the access token. -/
def accessToken (api : API) (now : Int) : Except ThreadsError String :=
  if api.credentials.expired now then .error .tokenExpired
  else .ok api.credentials.access_token

/-- An outcome that raised `e` before any network call. -/
def raised (api : API) (e : ThreadsError) : Outcome JSON :=
  ⟨.error e, [], api.credentials⟩

/-- Model of `API._get`: `RuntimeError` without a session, else one GET through the
session, returning the decoded JSON body. -/
def httpGet (api : API) (url : GraphURL) (oracle : Request → JSON) : Outcome JSON :=
  if api.session then ⟨.ok (oracle (.get url)), [.get url], api.credentials⟩
  else ⟨.error .runtimeError, [], api.credentials⟩

/-- Model of `API._post`: `RuntimeError` without a session, else one POST through the
session, returning the decoded JSON body. -/
def httpPost (api : API) (url : GraphURL) (oracle : Request → JSON) : Outcome JSON :=
  if api.session then ⟨.ok (oracle (.post url)), [.post url], api.credentials⟩
  else ⟨.error .runtimeError, [], api.credentials⟩

/-- The `session.post` + `"id" not in response` check shared by the three
publishing POSTs (the session was already checked by the caller): absence of
an `id` key raises `ThreadsResponseError`, else the `id` value is returned. -/
def postExtractId (api : API) (url : GraphURL) (oracle : Request → JSON) : Outcome JSON :=
  let response := oracle (.post url)
  match jget response "id" with
  | some v => ⟨.ok v, [.post url], api.credentials⟩
  | none => ⟨.error (.responseError response), [.post url], api.credentials⟩

/-- Model of `API.account`. -/
def account (api : API) (user_id : String) (now : Int) (oracle : Request → JSON) :
    Outcome JSON :=
  match accessToken api now with
  | .error e => raised api e
  | .ok tok =>
    let url := Threads.build_graph_api_url user_id
      [("fields", .s (joinComma ["threads_biography", "threads_profile_picture_url", "username"]))]
      (some tok)
    httpGet api url oracle

/-- Membership test `breakdown not in FOLLOWER_DEMOGRAPHIC_TYPES` (negated):
`none` (Python `None`) is never a member. -/
def breakdownKnown : Option String → Bool
  | some b => FOLLOWER_DEMOGRAPHIC_TYPES.contains b
  | none => false

/-- Model of `if isinstance(metrics, str): metrics = [metrics]` — a lone metric name
is promoted to a one-element list. -/
def metricsList : MetricsArg → List String
  | .one m => [m]
  | .many ms => ms

/-- Model of `API.user_insights`.  `since`/`until` are modelled already converted to
integer epoch seconds (`int(dt.timestamp())`); a Python `datetime` is always
truthy, so `some` values are always attached. -/
def user_insights (api : API) (metrics : MetricsArg) (since untl : Option Int)
    (breakdown : Option String) (now : Int) (oracle : Request → JSON) : Outcome JSON :=
  match accessToken api now with
  | .error e => raised api e
  | .ok tok =>
    let ms := metricsList metrics
    -- `set(metrics).difference(USER_METRIC_TYPES)`
    let invalid_metrics := ms.dedup.filter (fun m => !USER_METRIC_TYPES.contains m)
    if invalid_metrics.length > 0 then
      raised api (.invalidParameter (.invalidMetrics invalid_metrics))
    else if ms.contains "follower_demographics" && !breakdownKnown breakdown then
      raised api (.invalidParameter .breakdownRequired)
    else
      let params : ParamMap := [("metric", .s (joinComma ms))]
      let params := match since with
        | some t => dinsert params "since" (.i t)
        | none => params
      let params := match untl with
        | some t => dinsert params "until" (.i t)
        | none => params
      let params := match breakdown with
        | some b => if !b.isEmpty then dinsert params "breakdown" (.s b) else params
        | none => params
      httpGet api
        (Threads.build_graph_api_url (api.credentials.user_id ++ "/threads_insights") params (some tok))
        oracle

/-- Model of `API.publishing_limit`. -/
def publishing_limit (api : API) (now : Int) (oracle : Request → JSON) : Outcome JSON :=
  match accessToken api now with
  | .error e => raised api e
  | .ok tok =>
    httpGet api
      (Threads.build_graph_api_url (api.credentials.user_id ++ "/threads_publishing_limit")
        [("fields", .s (joinComma ["config", "quota_usage", "reply_config", "reply_quota_usage"]))]
        (some tok))
      oracle

/-- Model of `API.create_container`.  Faithful to the source: the session is checked
first, then token expiry; there is no check that `text` or `media` is
present. -/
def create_container (api : API) (text : Option String) (media : Option Media)
    (reply_control : ReplyControl) (reply_to_id : Option String) (is_carousel_item : Bool)
    (now : Int) (oracle : Request → JSON) : Outcome JSON :=
  if !api.session then raised api .runtimeError
  else match accessToken api now with
  | .error e => raised api e
  | .ok tok =>
    let params : ParamMap := [("reply_control", .s reply_control.value)]
    -- `if text:`
    let params := match text with
      | some t => if !t.isEmpty then
          dinsert (dinsert params "text" (.s t)) "media_type" (.s MediaType.TEXT.value)
        else params
      | none => params
    -- `if reply_to_id:`
    let params := match reply_to_id with
      | some r => if !r.isEmpty then dinsert params "reply_to_id" (.s r) else params
      | none => params
    -- `if is_carousel_item:`
    let params := if is_carousel_item then dinsert params "is_carousel_item" (.b true) else params
    -- media_type–specific parameters
    let params := match media with
      | some m =>
        match m.type with
        | .VIDEO => dinsert (dinsert params "media_type" (.s m.type.value)) "video_url" (.s m.url)
        | .IMAGE => dinsert (dinsert params "media_type" (.s m.type.value)) "image_url" (.s m.url)
        | _ => params
      | none => params
    postExtractId api
      (Threads.build_graph_api_url (api.credentials.user_id ++ "/threads") params (some tok))
      oracle

/-- Model of `API.create_carousel_container`. -/
def create_carousel_container (api : API) (containers : List ContainerStatus)
    (text : Option String) (reply_control : ReplyControl) (reply_to_id : Option String)
    (now : Int) (oracle : Request → JSON) : Outcome JSON :=
  if !api.session then raised api .runtimeError
  else match accessToken api now with
  | .error e => raised api e
  | .ok tok =>
    let num_media := containers.length
    if num_media < 2 ∨ num_media > 10 then
      raised api (.invalidParameter .carouselCount)
    else if containers.any (fun item => item.status != .FINISHED) then
      raised api (.invalidParameter .carouselChildrenNotFinished)
    else
      let children := joinComma (containers.map (·.id))
      let params : ParamMap :=
        [("media_type", .s MediaType.CAROUSEL.value),
         ("children", .s children),
         ("reply_control", .s reply_control.value)]
      let params := match text with
        | some t => if !t.isEmpty then dinsert params "text" (.s t) else params
        | none => params
      let params := match reply_to_id with
        | some r => if !r.isEmpty then dinsert params "reply_to_id" (.s r) else params
        | none => params
      postExtractId api
        (Threads.build_graph_api_url (api.credentials.user_id ++ "/threads") params (some tok))
        oracle

/-- The response post-processing of `API.container_status` (lines 538–548 of
`api.py`): `result.get("status", PublishingStatus.ERROR)` then a member
lookup by name (a `KeyError` for anything outside the enumeration — the
default works because the str-enum member `ERROR` hashes like `"ERROR"`);
`result.get("error_message")` is mapped through `PublishingError` only when
truthy; finally `result["id"]` (a `KeyError` when absent; the dataclass
annotates `id` as `str`, so a non-string id is outside the typed model). -/
def containerStatusParse (result : JSON) : Except ThreadsError ContainerStatus :=
  let statusRes : Except ThreadsError PublishingStatus :=
    match jget result "status" with
    | none => .ok .ERROR
    | some (.str s) =>
      match publishingStatusOfName s with
      | some st => .ok st
      | none => .error .keyError
    | some _ => .error .keyError
  match statusRes with
  | .error e => .error e
  | .ok status =>
    let errRes : Except ThreadsError (Option PublishingError) :=
      match jget result "error_message" with
      | some (.str s) =>
        if s.isEmpty then .ok none
        else
          match publishingErrorOfName s with
          | some pe => .ok (some pe)
          | none => .error .keyError
      | some v => if jtruthy v then .error .keyError else .ok none
      | none => .ok none
    match errRes with
    | .error e => .error e
    | .ok error =>
      match jget result "id" with
      | some (.str i) => .ok ⟨i, status, error⟩
      | some _ => .error .typeError
      | none => .error .keyError

/-- Model of `API.container_status`. -/
def container_status (api : API) (media_id : String) (now : Int)
    (oracle : Request → JSON) : Outcome ContainerStatus :=
  match accessToken api now with
  | .error e => ⟨.error e, [], api.credentials⟩
  | .ok tok =>
    let url := Threads.build_graph_api_url media_id
      [("fields", .s (joinComma ["id", "status", "error_message"]))] (some tok)
    let g := httpGet api url oracle
    match g.result with
    | .error e => ⟨.error e, g.calls, api.credentials⟩
    | .ok result => ⟨containerStatusParse result, g.calls, api.credentials⟩

/-- Model of `API.publish_container`. -/
def publish_container (api : API) (container_id : String) (now : Int)
    (oracle : Request → JSON) : Outcome JSON :=
  if !api.session then raised api .runtimeError
  else match accessToken api now with
  | .error e => raised api e
  | .ok tok =>
    postExtractId api
      (Threads.build_graph_api_url (api.credentials.user_id ++ "/threads_publish")
        [("creation_id", .s container_id)] (some tok))
      oracle

/-- The field list shared by `container`, `threads`, `replies` and
`conversation`. -/
def mediaFields : List String :=
  ["children", "id", "is_quote_post", "media_product_type", "media_type",
   "media_url", "owner", "permalink", "shortcode", "text", "thumbnail_url",
   "timestamp", "username"]

/-- Model of `API.container`. -/
def container (api : API) (container_id : String) (now : Int)
    (oracle : Request → JSON) : Outcome JSON :=
  match accessToken api now with
  | .error e => raised api e
  | .ok tok =>
    httpGet api
      (Threads.build_graph_api_url container_id
        [("fields", .s (joinComma mediaFields))] (some tok))
      oracle

/-- Model of `API.thread`: delegates to `container`. -/
def thread (api : API) (thread_id : String) (now : Int)
    (oracle : Request → JSON) : Outcome JSON :=
  container api thread_id now oracle

/-- The `since`/`until` argument of `API.threads`:
`Union[date, str]` (string accepted as legacy). -/
inductive DateArg where
  | d (year month day : Nat)
  | s (v : String)
deriving DecidableEq, Repr

/-- Model of `date.isoformat()`. -/
def DateArg.iso : DateArg → String
  | .d y m dd => ⟨padDigits 4 y ++ '-' :: padDigits 2 m ++ '-' :: padDigits 2 dd⟩
  | .s v => v

/-- Python truthiness of a `Union[date, str]` value: a `date` is always
truthy, a string iff non-empty. -/
def DateArg.truthy : DateArg → Bool
  | .d _ _ _ => true
  | .s v => !v.isEmpty

/-- Model of `API.threads`. -/
def threads (api : API) (since untl : Option DateArg) (limit : Option Int)
    (before after : Option String) (now : Int) (oracle : Request → JSON) : Outcome JSON :=
  match accessToken api now with
  | .error e => raised api e
  | .ok tok =>
    let params : ParamMap := [("fields", .s (joinComma mediaFields))]
    let params := match since with
      | some v => if v.truthy then dinsert params "since" (.s v.iso) else params
      | none => params
    let params := match untl with
      | some v => if v.truthy then dinsert params "until" (.s v.iso) else params
      | none => params
    -- `if limit:` (0 is falsy)
    let params := match limit with
      | some l => if l != 0 then dinsert params "limit" (.s (toString l)) else params
      | none => params
    let params := match before with
      | some b => if !b.isEmpty then dinsert params "before" (.s b) else params
      | none => params
    let params := match after with
      | some a => if !a.isEmpty then dinsert params "after" (.s a) else params
      | none => params
    httpGet api
      (Threads.build_graph_api_url (api.credentials.user_id ++ "/threads") params (some tok))
      oracle

/-- Model of `API.replies`. -/
def replies (api : API) (thread_id : String) (now : Int)
    (oracle : Request → JSON) : Outcome JSON :=
  match accessToken api now with
  | .error e => raised api e
  | .ok tok =>
    httpGet api
      (Threads.build_graph_api_url (thread_id ++ "/replies")
        [("fields", .s (joinComma mediaFields))] (some tok))
      oracle

/-- Model of `API.conversation`. -/
def conversation (api : API) (thread_id : String) (before after : Option String)
    (now : Int) (oracle : Request → JSON) : Outcome JSON :=
  match accessToken api now with
  | .error e => raised api e
  | .ok tok =>
    let params : ParamMap := [("fields", .s (joinComma mediaFields))]
    let params := match before with
      | some b => if !b.isEmpty then dinsert params "before" (.s b) else params
      | none => params
    let params := match after with
      | some a => if !a.isEmpty then dinsert params "after" (.s a) else params
      | none => params
    httpGet api
      (Threads.build_graph_api_url (thread_id ++ "/conversation") params (some tok))
      oracle

/-- Model of `API.manage_reply`. -/
def manage_reply (api : API) (reply_id : String) (hide : Bool) (now : Int)
    (oracle : Request → JSON) : Outcome JSON :=
  match accessToken api now with
  | .error e => raised api e
  | .ok tok =>
    httpPost api
      (Threads.build_graph_api_url (reply_id ++ "/manage_reply")
        [("hide", .b hide)] (some tok))
      oracle

/-- Model of `API.insights`. -/
def insights (api : API) (thread_id : String) (now : Int)
    (oracle : Request → JSON) : Outcome JSON :=
  match accessToken api now with
  | .error e => raised api e
  | .ok tok =>
    httpGet api
      (Threads.build_graph_api_url (thread_id ++ "/insights")
        [("fields", .s (joinComma ["likes", "quotes", "replies", "reposts", "views"]))]
        (some tok))
      oracle

end API

namespace Threads

/-- Model of `Threads.__handle_long_lived_access_token_response`: the response must
carry `access_token` and `expires_in`; the new expiration is
`now + timedelta(seconds=expires_in)`. -/
def handleLongLivedResponse (resp : JSON) (now : Int) : Except ThreadsError (String × Int) :=
  match jget resp "access_token" with
  | none => .error .authenticationError
  | some tokVal =>
    match jget resp "expires_in" with
    | none => .error .authenticationError
    | some expVal =>
      match tokVal, expVal with
      | .str tok, .num secs => .ok (tok, now + secs * 1000000)
      | _, _ => .error .typeError

/-- Model of `Threads.refresh_long_lived_token`: `TypeError` on a short-lived token,
`ThreadsAccessTokenExpired` when `credentials.expiration <= now` (both before
any network call), else one GET against the refresh endpoint. -/
def refresh_long_lived_token (credentials : Credentials) (now : Int)
    (oracle : Request → JSON) : Except ThreadsError (String × Int) × List Request :=
  if credentials.short_lived then (.error .typeError, [])
  else if credentials.expiration.toMicros ≤ now then (.error .tokenExpired, [])
  else
    let uri := build_graph_api_url "refresh_access_token"
      [("grant_type", .s "th_refresh_token")] (some credentials.access_token)
    (handleLongLivedResponse (oracle (.get uri)) now, [.get uri])

end Threads

/-! ## Printer/parser round-trip lemmas for the ISO-8601 codec -/

theorem digitChar_isDigit {d : Nat} (h : d ≤ 9) : (digitChar d).isDigit = true := by
  interval_cases d <;> decide

theorem digitChar_toNat {d : Nat} (h : d ≤ 9) : (digitChar d).toNat - 48 = d := by
  interval_cases d <;> decide

theorem readDigitsAux_pad (k : Nat) :
    ∀ (acc n : Nat) (rest : List Char), n < 10 ^ k →
      readDigitsAux k acc (padDigits k n ++ rest) = some (acc * 10 ^ k + n, rest) := by
  induction k with
  | zero =>
    intro acc n rest hn
    have : n = 0 := by omega
    simp [this, padDigits, readDigitsAux]
  | succ k ih =>
    intro acc n rest hn
    have h10 : 0 < 10 ^ k := Nat.pos_pow_of_pos k (by omega)
    have hq' : n / 10 ^ k < 10 := by
      apply (Nat.div_lt_iff_lt_mul h10).mpr
      rw [pow_succ] at hn
      omega
    have hq : n / 10 ^ k ≤ 9 := by omega
    have hr : n % 10 ^ k < 10 ^ k := Nat.mod_lt _ h10
    have hmod := Nat.div_add_mod n (10 ^ k)
    simp only [padDigits, List.cons_append, readDigitsAux, digitChar_isDigit hq,
      digitChar_toNat hq, if_true]
    rw [List.append_eq, ih _ _ _ hr]
    have key : (acc * 10 + n / 10 ^ k) * 10 ^ k + n % 10 ^ k = acc * 10 ^ (k + 1) + n := by
      calc (acc * 10 + n / 10 ^ k) * 10 ^ k + n % 10 ^ k
          = acc * (10 ^ k * 10) + (10 ^ k * (n / 10 ^ k) + n % 10 ^ k) := by ring
        _ = acc * 10 ^ (k + 1) + n := by rw [hmod, pow_succ]
    rw [key]

theorem readDigits_pad {k n : Nat} (rest : List Char) (hn : n < 10 ^ k) :
    readDigits k (padDigits k n ++ rest) = some (n, rest) := by
  rw [readDigits, readDigitsAux_pad k 0 n rest hn, Nat.zero_mul, Nat.zero_add]

theorem Datetime.daysInMonth_le (y m : Nat) : Datetime.daysInMonth y m ≤ 31 := by
  unfold Datetime.daysInMonth
  repeat' split
  all_goals omega

/-- The ISO-8601 codec round-trips: parsing the printed form of any valid
aware UTC datetime recovers it exactly. -/
theorem parseIso_isoChars (t : Datetime) (h : t.valid = true) :
    parseIso (Datetime.isoChars t) = some t := by
  obtain ⟨y, mo, d, hh, mi, s, us⟩ := t
  have hb := h
  simp only [Datetime.valid, Bool.and_eq_true, decide_eq_true_eq] at hb
  obtain ⟨⟨⟨⟨⟨⟨⟨⟨⟨hy1, hy2⟩, hm1⟩, hm2⟩, hd1⟩, hd2⟩, hhh⟩, hmi⟩, hs⟩, hus⟩ := hb
  have hdim := Datetime.daysInMonth_le y mo
  have e4 : ∀ rest, readDigits 4 (padDigits 4 y ++ rest) = some (y, rest) :=
    fun rest => readDigits_pad rest (by norm_num; omega)
  have emo : ∀ rest, readDigits 2 (padDigits 2 mo ++ rest) = some (mo, rest) :=
    fun rest => readDigits_pad rest (by norm_num; omega)
  have ed : ∀ rest, readDigits 2 (padDigits 2 d ++ rest) = some (d, rest) :=
    fun rest => readDigits_pad rest (by norm_num; omega)
  have ehh : ∀ rest, readDigits 2 (padDigits 2 hh ++ rest) = some (hh, rest) :=
    fun rest => readDigits_pad rest (by norm_num; omega)
  have emi : ∀ rest, readDigits 2 (padDigits 2 mi ++ rest) = some (mi, rest) :=
    fun rest => readDigits_pad rest (by norm_num; omega)
  have es : ∀ rest, readDigits 2 (padDigits 2 s ++ rest) = some (s, rest) :=
    fun rest => readDigits_pad rest (by norm_num; omega)
  have eus : ∀ rest, readDigits 6 (padDigits 6 us ++ rest) = some (us, rest) :=
    fun rest => readDigits_pad rest (by norm_num; omega)
  by_cases h0 : us = 0
  · subst h0
    simp only [Datetime.isoChars, if_true, List.nil_append, List.append_assoc,
      List.cons_append]
    simp [parseIso, e4, emo, ed, ehh, emi, es, expectChar, h]
  · simp only [Datetime.isoChars, h0, if_false, List.nil_append, List.append_assoc,
      List.cons_append]
    simp [parseIso, e4, emo, ed, ehh, emi, es, eus, expectChar, h]

/-- Decoding an encoded scopes array recovers the scopes list. -/
theorem decodeScopes_map (ss : List String) :
    Credentials.decodeScopes (ss.map JSON.str) = some ss := by
  induction ss with
  | nil => rfl
  | cons a rest ih => simp [Credentials.decodeScopes, ih]

/-! ## Concrete fixtures used by witnesses -/

/-- Instant 2024-06-23T18:25:43.511000+00:00. -/
def dt2024 : Datetime := ⟨2024, 6, 23, 18, 25, 43, 511000⟩

/-- Instant 2020-01-01T00:00:00+00:00. -/
def dt2020 : Datetime := ⟨2020, 1, 1, 0, 0, 0, 0⟩

/-- Credentials whose token expires in 2024. -/
def credsLive : Credentials :=
  ⟨"someuserid", ["threads_basic", "threads_content_publish"], false, "someaccesstoken", dt2024⟩

/-- Credentials whose token expired in 2020. -/
def credsDead : Credentials :=
  ⟨"someuserid", ["threads_basic"], false, "someaccesstoken", dt2020⟩

/-- A short-lived credentials record. -/
def credsShort : Credentials :=
  ⟨"someuserid", ["threads_basic"], true, "someaccesstoken", dt2024⟩

/-- An instant in 2020 (at which `credsLive` is not yet expired). -/
def now2020 : Int := dt2020.toMicros

/-- An instant in 2024 (at which `credsDead` has long expired). -/
def now2024 : Int := dt2024.toMicros

/-- An API instance with live credentials and a session. -/
def apiLive : API := ⟨credsLive, true⟩

/-- An API instance with expired credentials and a session. -/
def apiDead : API := ⟨credsDead, true⟩

/-- A network oracle that always answers `{"id": "17"}`. -/
def oracleId : Request → JSON := fun _ => .obj [("id", .str "17")]

/-! ## The claims -/

/-- Claim C2: for every credentials record and current instant, `expires_in`
equals `max(0, expiration - now)` in whole seconds truncated toward zero
(hence is non-negative), `expired` holds iff `expires_in = 0`; with
`expiration = now` the record is expired with 0 seconds left, and with
`expiration = now + 1s` it is not expired whenever `expires_in > 0`. -/
theorem credentials_expiry_semantics (c : Credentials) (now : Int) :
    c.expires_in now = max 0 (Int.tdiv (c.expiration.toMicros - now) 1000000) ∧
    0 ≤ c.expires_in now ∧
    (c.expired now = true ↔ c.expires_in now = 0) ∧
    (c.expiration.toMicros = now → c.expired now = true ∧ c.expires_in now = 0) ∧
    (c.expiration.toMicros = now + 1000000 →
      0 < c.expires_in now → c.expired now = false) := by
  have core : c.expires_in now = max 0 (Int.tdiv (c.expiration.toMicros - now) 1000000) := by
    simp only [Credentials.expires_in]
    split
    · next hpos => exact (max_eq_right hpos.le).symm
    · next hneg => exact (max_eq_left (by omega)).symm
  have hiff : c.expired now = true ↔ c.expires_in now = 0 := by
    simp [Credentials.expired]
  refine ⟨core, by rw [core]; exact le_max_left _ _, hiff, ?_, ?_⟩
  · intro heq
    have h0 : c.expires_in now = 0 := by
      rw [core, heq, sub_self]
      simp
    exact ⟨hiff.mpr h0, h0⟩
  · intro _ hpos
    have : ¬ (c.expired now = true) := by
      rw [hiff]
      omega
    simpa using this

/-- Witness for C2 at a concrete fixture: a record expiring exactly now is
expired with 0 seconds remaining. -/
theorem credentials_expiry_semantics_witness :
    credsDead.expired now2020 = true ∧ credsDead.expires_in now2020 = 0 :=
  (credentials_expiry_semantics credsDead now2020).2.2.2.1 (by decide)

/-- Claim C3: for every credentials record whose expiration instant is a
valid datetime, deserialising its serialisation yields an equal record
field-for-field, the expiration instant recovered exactly. -/
theorem credentials_roundtrip (c : Credentials) (h : c.expiration.valid = true) :
    Credentials.from_json (Credentials.to_json c) = some c := by
  obtain ⟨u, sc, sl, tok, ex⟩ := c
  simp only at h
  simp [Credentials.to_json, Credentials.from_json, decodeScopes_map, fromisoformat,
    Datetime.isoformat, parseIso_isoChars ex h]

/-- Witness for C3 at a concrete fixture (sub-second expiration precision,
several scopes). -/
theorem credentials_roundtrip_witness :
    Credentials.from_json (Credentials.to_json credsLive) = some credsLive :=
  credentials_roundtrip credsLive (by decide)

/-- Claim C8: `refresh_long_lived_token` raises `TypeError` on a short-lived
record, and `ThreadsAccessTokenExpired` on a long-lived record whose
expiration is at or before now; in both cases it issues no network call. -/
theorem refresh_guards (c : Credentials) (now : Int) (oracle : Request → JSON) :
    (c.short_lived = true →
      Threads.refresh_long_lived_token c now oracle = (.error .typeError, [])) ∧
    (c.short_lived = false → c.expiration.toMicros ≤ now →
      Threads.refresh_long_lived_token c now oracle = (.error .tokenExpired, [])) := by
  constructor
  · intro h
    simp [Threads.refresh_long_lived_token, h]
  · intro h hle
    simp [Threads.refresh_long_lived_token, h, hle]

/-- Witness for C8: both guards fire at concrete fixtures, without network
calls. -/
theorem refresh_guards_witness :
    Threads.refresh_long_lived_token credsShort now2020 oracleId = (.error .typeError, []) ∧
    Threads.refresh_long_lived_token credsDead now2024 oracleId = (.error .tokenExpired, []) :=
  ⟨(refresh_guards credsShort now2020 oracleId).1 (by decide),
   (refresh_guards credsDead now2024 oracleId).2 (by decide) (by decide)⟩

/-- Claim C1: with expired credentials (and a session attached, i.e. inside
`async with`), every facade/workflow operation raises
`ThreadsAccessTokenExpired` and issues zero network calls, leaving the
credentials untouched. -/
theorem expired_short_circuit (api : API) (now : Int) (oracle : Request → JSON)
    (user_id : String) (metrics : MetricsArg) (since untl : Option Int)
    (breakdown : Option String) (text : Option String) (media : Option Media)
    (rc : ReplyControl) (reply_to_id : Option String) (is_carousel_item : Bool)
    (containers : List ContainerStatus) (media_id container_id thread_id reply_id : String)
    (tsince tuntl : Option API.DateArg) (limit : Option Int) (before after : Option String)
    (hide : Bool)
    (hexp : api.credentials.expired now = true) (hsess : api.session = true) :
    API.account api user_id now oracle = ⟨.error .tokenExpired, [], api.credentials⟩ ∧
    API.user_insights api metrics since untl breakdown now oracle
      = ⟨.error .tokenExpired, [], api.credentials⟩ ∧
    API.publishing_limit api now oracle = ⟨.error .tokenExpired, [], api.credentials⟩ ∧
    API.create_container api text media rc reply_to_id is_carousel_item now oracle
      = ⟨.error .tokenExpired, [], api.credentials⟩ ∧
    API.create_carousel_container api containers text rc reply_to_id now oracle
      = ⟨.error .tokenExpired, [], api.credentials⟩ ∧
    API.container_status api media_id now oracle = ⟨.error .tokenExpired, [], api.credentials⟩ ∧
    API.publish_container api container_id now oracle
      = ⟨.error .tokenExpired, [], api.credentials⟩ ∧
    API.container api container_id now oracle = ⟨.error .tokenExpired, [], api.credentials⟩ ∧
    API.thread api thread_id now oracle = ⟨.error .tokenExpired, [], api.credentials⟩ ∧
    API.threads api tsince tuntl limit before after now oracle
      = ⟨.error .tokenExpired, [], api.credentials⟩ ∧
    API.replies api thread_id now oracle = ⟨.error .tokenExpired, [], api.credentials⟩ ∧
    API.conversation api thread_id before after now oracle
      = ⟨.error .tokenExpired, [], api.credentials⟩ ∧
    API.manage_reply api reply_id hide now oracle = ⟨.error .tokenExpired, [], api.credentials⟩ ∧
    API.insights api thread_id now oracle = ⟨.error .tokenExpired, [], api.credentials⟩ := by
  simp [API.account, API.user_insights, API.publishing_limit, API.create_container,
    API.create_carousel_container, API.container_status, API.publish_container,
    API.container, API.thread, API.threads, API.replies, API.conversation,
    API.manage_reply, API.insights, API.accessToken, API.raised, hexp, hsess]

/-- Witness for C1: the account operation on a concrete expired-credential
instance raises token-expired with no network traffic. -/
theorem expired_short_circuit_witness :
    API.account apiDead "me" now2024 oracleId = ⟨.error .tokenExpired, [], apiDead.credentials⟩ :=
  (expired_short_circuit apiDead now2024 oracleId "me" (.one "views") none none none none none
    .EVERYONE none false [] "m" "c" "t" "r" none none none none none false
    (by decide) (by decide)).1

/-- Claim C9: no facade operation mutates the credentials record — whatever
the arguments, the session state, the clock and the network behaviour, the
credentials after the call are the credentials the instance was built
with. -/
theorem facade_preserves_credentials (api : API) (now : Int) (oracle : Request → JSON)
    (user_id : String) (metrics : MetricsArg) (since untl : Option Int)
    (breakdown : Option String) (text : Option String) (media : Option Media)
    (rc : ReplyControl) (reply_to_id : Option String) (is_carousel_item : Bool)
    (containers : List ContainerStatus) (media_id container_id thread_id reply_id : String)
    (tsince tuntl : Option API.DateArg) (limit : Option Int) (before after : Option String)
    (hide : Bool) :
    (API.account api user_id now oracle).creds = api.credentials ∧
    (API.user_insights api metrics since untl breakdown now oracle).creds = api.credentials ∧
    (API.publishing_limit api now oracle).creds = api.credentials ∧
    (API.create_container api text media rc reply_to_id is_carousel_item now oracle).creds
      = api.credentials ∧
    (API.create_carousel_container api containers text rc reply_to_id now oracle).creds
      = api.credentials ∧
    (API.container_status api media_id now oracle).creds = api.credentials ∧
    (API.publish_container api container_id now oracle).creds = api.credentials ∧
    (API.container api container_id now oracle).creds = api.credentials ∧
    (API.thread api thread_id now oracle).creds = api.credentials ∧
    (API.threads api tsince tuntl limit before after now oracle).creds = api.credentials ∧
    (API.replies api thread_id now oracle).creds = api.credentials ∧
    (API.conversation api thread_id before after now oracle).creds = api.credentials ∧
    (API.manage_reply api reply_id hide now oracle).creds = api.credentials ∧
    (API.insights api thread_id now oracle).creds = api.credentials := by
  refine ⟨?_, ?_, ?_, ?_, ?_, ?_, ?_, ?_, ?_, ?_, ?_, ?_, ?_, ?_⟩ <;>
    · simp only [API.account, API.user_insights, API.publishing_limit, API.create_container,
        API.create_carousel_container, API.container_status, API.publish_container,
        API.container, API.thread, API.threads, API.replies, API.conversation,
        API.manage_reply, API.insights, API.accessToken, API.raised, API.httpGet,
        API.httpPost, API.postExtractId]
      repeat' split
      all_goals rfl

/-- Both branches of the publish-POST helper issue exactly the one POST. -/
theorem API.postExtractId_calls (api : API) (url : GraphURL) (oracle : Request → JSON) :
    (API.postExtractId api url oracle).calls = [.post url] := by
  simp only [API.postExtractId]
  split <;> rfl

/-- Claim C4: with live credentials and a session,
`create_carousel_container` rejects fewer than 2 or more than 10 children,
and any child not yet `FINISHED`, with `ThreadsInvalidParameter` and no
network call; with 2–10 children all `FINISHED` it issues the POST. -/
theorem carousel_validation (api : API) (now : Int) (oracle : Request → JSON)
    (containers : List ContainerStatus) (text : Option String) (rc : ReplyControl)
    (reply_to_id : Option String)
    (hexp : api.credentials.expired now = false) (hsess : api.session = true) :
    ((containers.length < 2 ∨ containers.length > 10) →
      API.create_carousel_container api containers text rc reply_to_id now oracle
        = ⟨.error (.invalidParameter .carouselCount), [], api.credentials⟩) ∧
    (2 ≤ containers.length → containers.length ≤ 10 →
      (∃ item ∈ containers, item.status ≠ .FINISHED) →
      API.create_carousel_container api containers text rc reply_to_id now oracle
        = ⟨.error (.invalidParameter .carouselChildrenNotFinished), [], api.credentials⟩) ∧
    (2 ≤ containers.length → containers.length ≤ 10 →
      (∀ item ∈ containers, item.status = .FINISHED) →
      ∃ u, (API.create_carousel_container api containers text rc reply_to_id now oracle).calls
        = [.post u]) := by
  refine ⟨?_, ?_, ?_⟩
  · intro hcount
    simp [API.create_carousel_container, API.accessToken, API.raised, hexp, hsess, hcount]
  · intro h2 h10 hex
    have hcount : ¬(containers.length < 2 ∨ containers.length > 10) := by omega
    have hany : containers.any (fun item => item.status != .FINISHED) = true := by
      rw [List.any_eq_true]
      obtain ⟨it, hm, hne⟩ := hex
      exact ⟨it, hm, by simpa [bne_iff_ne] using hne⟩
    simp [API.create_carousel_container, API.accessToken, API.raised, hexp, hsess, hcount, hany]
  · intro h2 h10 hall
    have hcount : ¬(containers.length < 2 ∨ containers.length > 10) := by omega
    have hany : containers.any (fun item => item.status != .FINISHED) = false := by
      rw [Bool.eq_false_iff]
      intro hcontra
      rw [List.any_eq_true] at hcontra
      obtain ⟨it, hm, hne⟩ := hcontra
      exact (bne_iff_ne.mp hne) (hall it hm)
    simp [API.create_carousel_container, API.accessToken, hexp, hsess, hcount, hany,
      API.postExtractId_calls]

/-- Witness for C4: a 3-child all-FINISHED carousel proceeds to the POST; a
1-child list is rejected count-wise; a 2-child list with an `IN_PROGRESS`
child is rejected status-wise. -/
theorem carousel_validation_witness :
    (API.create_carousel_container apiLive [⟨"1", .FINISHED, none⟩] none .EVERYONE none
        now2020 oracleId
      = ⟨.error (.invalidParameter .carouselCount), [], apiLive.credentials⟩) ∧
    (API.create_carousel_container apiLive [⟨"1", .FINISHED, none⟩, ⟨"2", .IN_PROGRESS, none⟩]
        none .EVERYONE none now2020 oracleId
      = ⟨.error (.invalidParameter .carouselChildrenNotFinished), [], apiLive.credentials⟩) ∧
    (∃ u, (API.create_carousel_container apiLive
        [⟨"1", .FINISHED, none⟩, ⟨"2", .FINISHED, none⟩, ⟨"3", .FINISHED, none⟩]
        none .EVERYONE none now2020 oracleId).calls = [.post u]) :=
  ⟨(carousel_validation apiLive now2020 oracleId [⟨"1", .FINISHED, none⟩] none .EVERYONE none
      (by decide) (by decide)).1 (by decide),
   (carousel_validation apiLive now2020 oracleId
      [⟨"1", .FINISHED, none⟩, ⟨"2", .IN_PROGRESS, none⟩] none .EVERYONE none
      (by decide) (by decide)).2.1 (by decide) (by decide)
      ⟨⟨"2", .IN_PROGRESS, none⟩, by decide, by decide⟩,
   (carousel_validation apiLive now2020 oracleId
      [⟨"1", .FINISHED, none⟩, ⟨"2", .FINISHED, none⟩, ⟨"3", .FINISHED, none⟩]
      none .EVERYONE none (by decide) (by decide)).2.2 (by decide) (by decide)
      (by decide)⟩

/-- Claim C5 evaluation: `create_container` invoked with neither `text` nor
`media` performs NO precondition check — it proceeds to issue the POST (with
only `reply_control` attached) and returns the provider's id.  The method's
own docstring ("you must provide at least one or the other") and the design
document say this must fail with invalid-parameter before any network
call. -/
theorem create_container_no_text_no_media_posts :
    API.create_container apiLive none none .EVERYONE none false now2020 oracleId
      = ⟨.ok (.str "17"),
         [.post ⟨"someuserid/threads", [("reply_control", .s "everyone")],
                 some "someaccesstoken"⟩],
         credsLive⟩ := by
  rfl

/-- Claim C6: `container_status` feeds the provider response through the
status/error mapping; an absent status defaults to `ERROR`; the error field
is set (via the `PublishingError` enum) only for a non-empty
`error_message`; a status or error string outside the known enumerations is
a lookup (`KeyError`) failure. -/
theorem container_status_mapping (api : API) (now : Int) (oracle : Request → JSON)
    (media_id : String) (r : JSON)
    (hexp : api.credentials.expired now = false) (hsess : api.session = true) :
    (API.container_status api media_id now oracle
      = ⟨API.containerStatusParse (oracle (.get (Threads.build_graph_api_url media_id
            [("fields", .s (joinComma ["id", "status", "error_message"]))]
            (some api.credentials.access_token)))),
         [.get (Threads.build_graph_api_url media_id
            [("fields", .s (joinComma ["id", "status", "error_message"]))]
            (some api.credentials.access_token))],
         api.credentials⟩) ∧
    (∀ s, jget r "status" = some (.str s) → publishingStatusOfName s = none →
      API.containerStatusParse r = .error .keyError) ∧
    (∀ i, jget r "status" = none → jget r "error_message" = none →
      jget r "id" = some (.str i) →
      API.containerStatusParse r = .ok ⟨i, .ERROR, none⟩) ∧
    (∀ s st i, jget r "status" = some (.str s) → publishingStatusOfName s = some st →
      jget r "id" = some (.str i) →
      ((jget r "error_message" = none → API.containerStatusParse r = .ok ⟨i, st, none⟩) ∧
       (jget r "error_message" = some (.str "") →
         API.containerStatusParse r = .ok ⟨i, st, none⟩) ∧
       (∀ e, jget r "error_message" = some (.str e) → e ≠ "" →
         ((∀ pe, publishingErrorOfName e = some pe →
            API.containerStatusParse r = .ok ⟨i, st, some pe⟩) ∧
          (publishingErrorOfName e = none →
            API.containerStatusParse r = .error .keyError))))) := by
  refine ⟨?_, ?_, ?_, ?_⟩
  · simp [API.container_status, API.accessToken, API.httpGet, hexp, hsess]
  · intro s hs hnone
    simp [API.containerStatusParse, hs, hnone]
  · intro i hs herr hid
    simp [API.containerStatusParse, hs, herr, hid]
  · intro s st i hs hst hid
    have hICase : ∀ e, e ≠ "" → (e : String).isEmpty = false := by
      intro e he
      rw [Bool.eq_false_iff]
      simpa [String.isEmpty_iff] using he
    refine ⟨?_, ?_, ?_⟩
    · intro herr
      simp [API.containerStatusParse, hs, hst, hid, herr]
    · intro herr
      have hemp : ("" : String).isEmpty = true := by decide
      simp [API.containerStatusParse, hs, hst, hid, herr, hemp]
    · intro e herr hne
      refine ⟨?_, ?_⟩
      · intro pe hpe
        simp [API.containerStatusParse, hs, hst, hid, herr, hICase e hne, hpe]
      · intro hpe
        simp [API.containerStatusParse, hs, hst, hid, herr, hICase e hne, hpe]

/-- Witness for C6 at concrete responses: a FINISHED status with empty
error_message yields no error field; an unknown status string is a lookup
failure; an absent status defaults to ERROR. -/
theorem container_status_mapping_witness :
    API.containerStatusParse
        (.obj [("id", .str "9"), ("status", .str "FINISHED"), ("error_message", .str "")])
      = .ok ⟨"9", .FINISHED, none⟩ ∧
    API.containerStatusParse (.obj [("id", .str "9"), ("status", .str "BOGUS")])
      = .error .keyError ∧
    API.containerStatusParse (.obj [("id", .str "9")]) = .ok ⟨"9", .ERROR, none⟩ :=
  ⟨((container_status_mapping apiLive now2020 oracleId "9"
      (.obj [("id", .str "9"), ("status", .str "FINISHED"), ("error_message", .str "")])
      (by decide) (by decide)).2.2.2 "FINISHED" .FINISHED "9" rfl rfl rfl).2.1 rfl,
   (container_status_mapping apiLive now2020 oracleId "9"
      (.obj [("id", .str "9"), ("status", .str "BOGUS")])
      (by decide) (by decide)).2.1 "BOGUS" rfl rfl,
   (container_status_mapping apiLive now2020 oracleId "9" (.obj [("id", .str "9")])
      (by decide) (by decide)).2.2.1 "9" rfl rfl rfl⟩

/-- Claim C7: `user_insights` rejects any request containing unknown metric
names with an invalid-parameter error naming exactly the offending names,
requires a known breakdown (one of age/city/country/gender) whenever
`follower_demographics` is requested, and, called with
`["follower_demographics"]` and breakdown `"age"`, proceeds with a request
whose breakdown parameter is `"age"`; all failures occur before any network
call. -/
theorem user_insights_validation (api : API) (now : Int) (oracle : Request → JSON)
    (metrics : MetricsArg) (since untl : Option Int) (breakdown : Option String)
    (hexp : api.credentials.expired now = false) (hsess : api.session = true) :
    ((∃ m ∈ API.metricsList metrics, m ∉ USER_METRIC_TYPES) →
      ∃ bad, API.user_insights api metrics since untl breakdown now oracle
          = ⟨.error (.invalidParameter (.invalidMetrics bad)), [], api.credentials⟩ ∧
        ∀ x, x ∈ bad ↔ x ∈ API.metricsList metrics ∧ x ∉ USER_METRIC_TYPES) ∧
    ((∀ m ∈ API.metricsList metrics, m ∈ USER_METRIC_TYPES) →
      "follower_demographics" ∈ API.metricsList metrics →
      (breakdown = none ∨ ∃ b, breakdown = some b ∧ b ∉ FOLLOWER_DEMOGRAPHIC_TYPES) →
      API.user_insights api metrics since untl breakdown now oracle
        = ⟨.error (.invalidParameter .breakdownRequired), [], api.credentials⟩) ∧
    (API.user_insights api (.many ["follower_demographics"]) none none (some "age") now oracle
      = ⟨.ok (oracle (.get (Threads.build_graph_api_url
            (api.credentials.user_id ++ "/threads_insights")
            [("metric", .s "follower_demographics"), ("breakdown", .s "age")]
            (some api.credentials.access_token)))),
         [.get (Threads.build_graph_api_url
            (api.credentials.user_id ++ "/threads_insights")
            [("metric", .s "follower_demographics"), ("breakdown", .s "age")]
            (some api.credentials.access_token))],
         api.credentials⟩) := by
  refine ⟨?_, ?_, ?_⟩
  · intro hexists
    have hlen : 0 < ((API.metricsList metrics).dedup.filter
        (fun x => !USER_METRIC_TYPES.contains x)).length := by
      obtain ⟨m, hm, hnm⟩ := hexists
      apply List.length_pos.mpr
      intro hnil
      have hmem : m ∈ (API.metricsList metrics).dedup.filter
          (fun x => !USER_METRIC_TYPES.contains x) := by
        rw [List.mem_filter]
        exact ⟨List.mem_dedup.mpr hm, by simpa using hnm⟩
      rw [hnil] at hmem
      exact absurd hmem (List.not_mem_nil m)
    refine ⟨(API.metricsList metrics).dedup.filter (fun x => !USER_METRIC_TYPES.contains x),
      ?_, ?_⟩
    · simp [API.user_insights, API.accessToken, API.raised, hexp, hlen]
      intro hall
      obtain ⟨m, hm, hnm⟩ := hexists
      exact absurd (hall m hm) hnm
    · intro x
      simp [List.mem_filter, List.mem_dedup]
  · intro hall hfd hbk
    have hinv : (List.filter (fun m => !decide (m ∈ USER_METRIC_TYPES))
        (API.metricsList metrics).dedup) = [] := by
      rw [List.filter_eq_nil_iff]
      intro a ha
      simpa using hall a (List.mem_dedup.mp ha)
    have hbk' : API.breakdownKnown breakdown = false := by
      rcases hbk with h | ⟨b, hb, hnb⟩
      · rw [h]
        rfl
      · rw [hb]
        simpa [API.breakdownKnown] using hnb
    simp [API.user_insights, API.accessToken, API.raised, hexp, hinv, hfd, hbk']
  · have hded : (["follower_demographics"] : List String).dedup = ["follower_demographics"] := by
      rw [List.dedup_cons_of_not_mem (List.not_mem_nil _), List.dedup_nil]
    have hjoin : joinComma ["follower_demographics"] = "follower_demographics" := rfl
    have hage : ("age" : String).isEmpty = false := by decide
    simp [API.user_insights, API.accessToken, API.httpGet, hexp, hsess, API.metricsList, hded,
      hjoin, hage, API.breakdownKnown, dinsert, FOLLOWER_DEMOGRAPHIC_TYPES, USER_METRIC_TYPES]

/-- Witness for C7: requesting follower demographics without a breakdown
fails invalid-parameter with no network call; with breakdown "age" the GET
carries `breakdown=age`. -/
theorem user_insights_validation_witness :
    (API.user_insights apiLive (.many ["follower_demographics"]) none none none now2020 oracleId
      = ⟨.error (.invalidParameter .breakdownRequired), [], apiLive.credentials⟩) ∧
    (API.user_insights apiLive (.many ["follower_demographics"]) none none (some "age")
        now2020 oracleId
      = ⟨.ok (oracleId (.get ⟨"someuserid/threads_insights",
            [("metric", .s "follower_demographics"), ("breakdown", .s "age")],
            some "someaccesstoken"⟩)),
         [.get ⟨"someuserid/threads_insights",
            [("metric", .s "follower_demographics"), ("breakdown", .s "age")],
            some "someaccesstoken"⟩],
         apiLive.credentials⟩) :=
  ⟨(user_insights_validation apiLive now2020 oracleId (.many ["follower_demographics"])
      none none none (by decide) (by decide)).2.1
      (by decide) (by decide) (Or.inl rfl),
   (user_insights_validation apiLive now2020 oracleId (.many ["follower_demographics"])
      none none (some "age") (by decide) (by decide)).2.2⟩

/-- Claim C10: a single metric name passed as a plain string behaves exactly
as its one-element list — the two invocations have identical outcomes — and
the canonical single-metric call issues a GET whose `metric` parameter is
exactly that name. -/
theorem user_insights_string_promotion (api : API) (now : Int) (oracle : Request → JSON)
    (m : String) (since untl : Option Int) (breakdown : Option String) :
    (API.user_insights api (.one m) since untl breakdown now oracle
      = API.user_insights api (.many [m]) since untl breakdown now oracle) ∧
    (api.credentials.expired now = false → api.session = true →
      m ∈ USER_METRIC_TYPES → m ≠ "follower_demographics" →
      (API.user_insights api (.one m) none none none now oracle).calls
        = [.get (Threads.build_graph_api_url (api.credentials.user_id ++ "/threads_insights")
            [("metric", .s m)] (some api.credentials.access_token))] ∧
      dlookup [("metric", PVal.s m)] "metric" = some (.s m)) := by
  constructor
  · rfl
  · intro hexp hsess hmem hnfd
    have hded : ([m] : List String).dedup = [m] := by
      rw [List.dedup_cons_of_not_mem (List.not_mem_nil _), List.dedup_nil]
    have hjoin : joinComma [m] = m := rfl
    have hne : ¬ ("follower_demographics" = m) := fun h => hnfd h.symm
    constructor
    · simp [API.user_insights, API.accessToken, API.httpGet, API.metricsList, hexp, hsess,
        hded, hjoin, hmem, hne]
    · simp [dlookup]

/-- Witness for C10: the plain-string call with "views" equals the
one-element-list call, and its GET carries `metric=views`. -/
theorem user_insights_string_promotion_witness :
    (API.user_insights apiLive (.one "views") none none none now2020 oracleId
      = API.user_insights apiLive (.many ["views"]) none none none now2020 oracleId) ∧
    (API.user_insights apiLive (.one "views") none none none now2020 oracleId).calls
      = [.get (Threads.build_graph_api_url "someuserid/threads_insights"
          [("metric", .s "views")] (some "someaccesstoken"))] :=
  ⟨(user_insights_string_promotion apiLive now2020 oracleId "views" none none none).1,
   ((user_insights_string_promotion apiLive now2020 oracleId "views" none none none).2
      (by decide) (by decide) (by decide) (by decide)).1⟩
